import Mathlib

/-!
Verification of the FTP passthrough proxy (`src/pandaproxy/ftp_proxy.py`)
against its natural-language specification.

The Python module is shallowly embedded: streams are lists of byte chunks,
the proxy object is a record, and the `start` / `stop` / `_handle_connection`
/ `_forward_bidirectional` coroutines become pure functions that return the
updated state together with a trace of the observable I/O actions they
perform (bind attempts, task cancellation, writer closes, connects).
-/

/-- Bytes are modelled as naturals; a chunk is one return value of
`StreamReader.read`. -/
abbrev Chunk := List Nat

/-- Embedding of the inner `forward` coroutine of
`FTPProxy._forward_bidirectional`: it repeatedly calls `src.read(65536)`,
breaks on an empty result (EOF), and otherwise writes the chunk to `dst`
(`dst.write(data); await dst.drain()`).  The input list is the sequence of
chunks successive `read` calls deliver; the result is the sequence of chunks
written to the destination. -/
def forward : List Chunk → List Chunk
  | [] => []
  | c :: rest => if c.isEmpty then [] else c :: forward rest

/-- C1: for each direction of an FTP passthrough session, the chunks written
to the destination are exactly the chunks read from the source, in order
(hence the concatenated bytes agree: nothing inserted, reordered, or lost),
and every chunk is at most 65536 bytes.  The hypotheses state the contract of
`StreamReader.read(65536)`: before EOF it returns a nonempty chunk of at most
65536 bytes. -/
theorem C1_forward_byte_exact (reads : List Chunk)
    (hne : ∀ c ∈ reads, c ≠ [])
    (hsz : ∀ c ∈ reads, c.length ≤ 65536) :
    forward reads = reads ∧
    (forward reads).flatten = reads.flatten ∧
    ∀ d ∈ forward reads, d.length ≤ 65536 := by
  have hid : forward reads = reads := by
    induction reads with
    | nil => rfl
    | cons c rest ih =>
      have hc : c ≠ [] := hne c (by simp)
      have : ¬ c.isEmpty := by simpa [List.isEmpty_iff] using hc
      simp only [forward, this, if_false]
      exact congrArg (c :: ·) (ih (fun d hd => hne d (by simp [hd]))
        (fun d hd => hsz d (by simp [hd])))
  refine ⟨hid, by rw [hid], ?_⟩
  intro d hd
  rw [hid] at hd
  exact hsz d hd

/-- Witness for C1 at a concrete read sequence. -/
theorem C1_forward_byte_exact_witness :
    (∀ c ∈ [[1, 2, 3], [4, 5]], c ≠ ([] : Chunk)) ∧
    (∀ c ∈ [[1, 2, 3], [4, 5]], c.length ≤ 65536) ∧
    (forward [[1, 2, 3], [4, 5]] = [[1, 2, 3], [4, 5]] ∧
     (forward [[1, 2, 3], [4, 5]]).flatten = List.flatten [[1, 2, 3], [4, 5]] ∧
     ∀ d ∈ forward [[1, 2, 3], [4, 5]], d.length ≤ 65536) :=
  ⟨by decide, by decide,
   C1_forward_byte_exact [[1, 2, 3], [4, 5]] (by decide) (by decide)⟩

/-! ## FTPProxy state and lifecycle

`FTPProxy.__init__` stores the printer IP, bind address, the control port
(`FTP_PORT`), an optional control server, a list of data servers, a running
flag, and the set of active connection tasks.  A bound listener is modelled
as a `Server` record carrying its port and whether it is still open
(`Server.close()` flips the flag; the Python code never resets
`_control_server` to `None` after closing it, and the model preserves that).
-/

/-- Modelled from the spec: `FTP_PORT` is imported from
`pandaproxy.protocol`, a module not present in the sources; the spec fixes
the FTP control port at 990. -/
def FTP_PORT : Nat := 990

/-- Start of the FTP data port range (`FTP_DATA_PORT_START = 2000`). -/
def FTP_DATA_PORT_START : Nat := 2000

/-- End of the FTP data port range (`FTP_DATA_PORT_END = 2100`). -/
def FTP_DATA_PORT_END : Nat := 2100

/-- The ports `range(FTP_DATA_PORT_START, FTP_DATA_PORT_END + 1)` iterated by
`FTPProxy.start`. -/
def dataPortRange : List Nat :=
  List.range' FTP_DATA_PORT_START (FTP_DATA_PORT_END + 1 - FTP_DATA_PORT_START)

/-- An `asyncio.Server` as the proxy observes it: the port it listens on and
whether it is still open. -/
structure Server where
  port : Nat
  isOpen : Bool
deriving DecidableEq, Repr

/-- State of an `FTPProxy` instance (the attributes set in `__init__`).
Tasks are identified by naturals; the Python `set` of active connection
tasks is modelled as a duplicate-free list. -/
structure FTPProxy where
  printer_ip : String
  bind_address : String
  port : Nat
  control_server : Option Server
  data_servers : List Server
  running : Bool
  active_connections : List Nat
deriving DecidableEq, Repr

/-- `FTPProxy.__init__(printer_ip, bind_address)`. -/
def FTPProxy.init (printer_ip : String) (bind_address : String) : FTPProxy :=
  { printer_ip := printer_ip
    bind_address := bind_address
    port := FTP_PORT
    control_server := none
    data_servers := []
    running := false
    active_connections := [] }

/-- Observable bind events emitted by `FTPProxy.start`. -/
inductive StartAct where
  /-- `asyncio.start_server` succeeded on this port. -/
  | bindOk (port : Nat)
  /-- A data-port bind raised `OSError`; the port is skipped and logged. -/
  | bindSkipped (port : Nat)
  /-- The control-port bind raised; the exception propagates out of `start`. -/
  | bindFailed (port : Nat)
deriving DecidableEq, Repr

/-- The data-port loop of `FTPProxy.start`: for each port in order, try to
bind; on success append the server to the list, on `OSError` skip the port.
`env p` tells whether binding port `p` succeeds in the current OS
environment. -/
def bindDataPorts (env : Nat → Bool) : List Nat → List Server × List StartAct
  | [] => ([], [])
  | p :: rest =>
    let (ss, tr) := bindDataPorts env rest
    if env p then ({ port := p, isOpen := true } :: ss, StartAct.bindOk p :: tr)
    else (ss, StartAct.bindSkipped p :: tr)

/-- `FTPProxy.start`.  Returns the new state, the port whose bind raised an
uncaught `OSError` (only the control port can: data-port failures are caught),
and the trace of bind events.  Mirrors the code: early return when already
running; set `_running = True`; bind the control port outside any handler (a
failure propagates); then bind each data port inside `try/except OSError`. -/
def FTPProxy.start (env : Nat → Bool) (st : FTPProxy) :
    FTPProxy × Option Nat × List StartAct :=
  if st.running then (st, none, [])
  else
    let st1 := { st with running := true }
    if env st1.port then
      let (ds, tr) := bindDataPorts env dataPortRange
      ({ st1 with
          control_server := some { port := st1.port, isOpen := true }
          data_servers := st1.data_servers ++ ds },
       none, StartAct.bindOk st1.port :: tr)
    else
      (st1, some st1.port, [StartAct.bindFailed st1.port])

/-- Observable events emitted by `FTPProxy.stop`. -/
inductive StopAct where
  /-- `task.cancel()` on an active connection task. -/
  | cancelTask (t : Nat)
  /-- The `asyncio.gather` await covering an active connection task. -/
  | awaitTask (t : Nat)
  /-- `self._control_server.close()`. -/
  | closeControl (port : Nat)
  /-- `await self._control_server.wait_closed()`. -/
  | waitControl (port : Nat)
  /-- `server.close()` on a data server. -/
  | closeData (port : Nat)
  /-- `await server.wait_closed()` on a data server. -/
  | waitData (port : Nat)
deriving DecidableEq, Repr

/-- `FTPProxy.stop`.  Clears the running flag, cancels every active
connection task then awaits them all (`asyncio.gather`, guarded by a
non-emptiness check) and clears the set, closes and awaits the control
server if one was ever created (the attribute is kept, now closed), closes
then awaits every data server, and clears the data-server list. -/
def FTPProxy.stop (st : FTPProxy) : FTPProxy × List StopAct :=
  let cancelActs := st.active_connections.map StopAct.cancelTask
  let awaitActs :=
    if st.active_connections.isEmpty then []
    else st.active_connections.map StopAct.awaitTask
  let controlActs :=
    match st.control_server with
    | none => []
    | some s => [StopAct.closeControl s.port, StopAct.waitControl s.port]
  let closeDataActs := st.data_servers.map (fun s => StopAct.closeData s.port)
  let waitDataActs := st.data_servers.map (fun s => StopAct.waitData s.port)
  ({ st with
      running := false
      active_connections := []
      control_server := st.control_server.map (fun s => { s with isOpen := false })
      data_servers := [] },
   cancelActs ++ awaitActs ++ controlActs ++ closeDataActs ++ waitDataActs)

/-- The ports on which the proxy currently holds an open listener. -/
def FTPProxy.openListeners (st : FTPProxy) : List Nat :=
  (match st.control_server with
   | some s => if s.isOpen then [s.port] else []
   | none => []) ++
  (st.data_servers.filter (fun s => s.isOpen)).map Server.port

/-! ## Lifecycle theorems -/

theorem bindDataPorts_fst (env : Nat → Bool) (ps : List Nat) :
    (bindDataPorts env ps).1 =
      (ps.filter (fun p => env p)).map (fun p => { port := p, isOpen := true }) := by
  induction ps with
  | nil => rfl
  | cons p rest ih =>
    by_cases h : env p <;> simp [bindDataPorts, h, ih]

theorem bindDataPorts_skipped (env : Nat → Bool) (ps : List Nat) (p : Nat)
    (hp : p ∈ ps) (h : env p = false) :
    StartAct.bindSkipped p ∈ (bindDataPorts env ps).2 := by
  induction ps with
  | nil => cases hp
  | cons q rest ih =>
    rcases List.mem_cons.mp hp with rfl | hmem
    · simp [bindDataPorts, h]
    · by_cases hq : env q <;> simp [bindDataPorts, hq, ih hmem]

/-- C2: on a non-running proxy, a control-port bind failure makes `start`
propagate the exception with nothing bound (only the running flag set),
while a data-port bind failure is non-fatal: `start` returns without an
exception, the control server is bound, the data servers are exactly the
bindable ports of the range (failing ports are skipped and logged), and
each skipped port appears in the trace. -/
theorem C2_control_fatal_data_nonfatal (st : FTPProxy) (env : Nat → Bool)
    (hrun : st.running = false) :
    (env st.port = false →
      FTPProxy.start env st =
        ({ st with running := true }, some st.port, [StartAct.bindFailed st.port])) ∧
    (env st.port = true →
      (FTPProxy.start env st).2.1 = none ∧
      (FTPProxy.start env st).1.control_server = some { port := st.port, isOpen := true } ∧
      (FTPProxy.start env st).1.data_servers =
        st.data_servers ++
          (dataPortRange.filter (fun p => env p)).map (fun p => { port := p, isOpen := true }) ∧
      ∀ p ∈ dataPortRange, env p = false →
        StartAct.bindSkipped p ∈ (FTPProxy.start env st).2.2) := by
  constructor
  · intro hbind
    simp [FTPProxy.start, hrun, hbind]
  · intro hbind
    refine ⟨?_, ?_, ?_, ?_⟩ <;>
      simp [FTPProxy.start, hrun, hbind, bindDataPorts_fst]
    intro p hp hskip
    exact bindDataPorts_skipped env dataPortRange p hp hskip

/-- Witness for C2: the proxy just constructed is not running; with binds
succeeding everywhere except port 2050, `start` succeeds, binds the control
port, and skips exactly 2050. -/
theorem C2_control_fatal_data_nonfatal_witness :
    ((FTPProxy.init "printer" "0.0.0.0").running = false) ∧
    (((fun p => !(p == 2050)) (FTPProxy.init "printer" "0.0.0.0").port = false →
      FTPProxy.start (fun p => !(p == 2050)) (FTPProxy.init "printer" "0.0.0.0") =
        ({ FTPProxy.init "printer" "0.0.0.0" with running := true },
         some (FTPProxy.init "printer" "0.0.0.0").port,
         [StartAct.bindFailed (FTPProxy.init "printer" "0.0.0.0").port])) ∧
     ((fun p => !(p == 2050)) (FTPProxy.init "printer" "0.0.0.0").port = true →
      (FTPProxy.start (fun p => !(p == 2050)) (FTPProxy.init "printer" "0.0.0.0")).2.1 = none ∧
      (FTPProxy.start (fun p => !(p == 2050)) (FTPProxy.init "printer" "0.0.0.0")).1.control_server =
        some { port := (FTPProxy.init "printer" "0.0.0.0").port, isOpen := true } ∧
      (FTPProxy.start (fun p => !(p == 2050)) (FTPProxy.init "printer" "0.0.0.0")).1.data_servers =
        (FTPProxy.init "printer" "0.0.0.0").data_servers ++
          (dataPortRange.filter (fun p => (fun p => !(p == 2050)) p)).map
            (fun p => { port := p, isOpen := true }) ∧
      ∀ p ∈ dataPortRange, (fun p => !(p == 2050)) p = false →
        StartAct.bindSkipped p ∈
          (FTPProxy.start (fun p => !(p == 2050)) (FTPProxy.init "printer" "0.0.0.0")).2.2)) :=
  ⟨rfl, C2_control_fatal_data_nonfatal (FTPProxy.init "printer" "0.0.0.0")
    (fun p => !(p == 2050)) rfl⟩

/-- C9: calling `stop` on a proxy that was never started is safe and changes
nothing: every guarded step is skipped (no control server, no data servers,
no active tasks), the trace is empty, and the state — running flag included —
is exactly the freshly initialised state. -/
theorem C9_stop_never_started (printer_ip bind_address : String) :
    FTPProxy.stop (FTPProxy.init printer_ip bind_address) =
      (FTPProxy.init printer_ip bind_address, []) := rfl

/-- C4: `start` after `start` is a no-op returning the same state, no
exception, and an empty trace (the state after any `start` has the running
flag set, so the second call returns immediately without binding anything);
and `stop` after `stop` produces exactly the state a single `stop`
produces. -/
theorem C4_start_stop_idempotent (st : FTPProxy) (env env2 : Nat → Bool) :
    FTPProxy.start env2 (FTPProxy.start env st).1 =
      ((FTPProxy.start env st).1, none, []) ∧
    (FTPProxy.stop (FTPProxy.stop st).1).1 = (FTPProxy.stop st).1 := by
  constructor
  · by_cases h : st.running
    · by_cases h2 : env st.port <;> simp [FTPProxy.start, h, h2]
    · by_cases h2 : env st.port <;> simp [FTPProxy.start, h, h2]
  · cases hc : st.control_server <;>
      simp [FTPProxy.stop, hc]

/-- C10: on a non-running proxy whose control-port bind fails, `start` sets
the running flag before binding, so the exception propagates with the flag
left `True` and no listener bound; consequently every subsequent `start`
(under any bind environment) returns immediately as a no-op that binds
nothing. -/
theorem C10_flag_set_before_bind (st : FTPProxy) (env env2 : Nat → Bool)
    (hrun : st.running = false) (hbind : env st.port = false) :
    (FTPProxy.start env st).1.running = true ∧
    (FTPProxy.start env st).2.1 = some st.port ∧
    (FTPProxy.start env st).1.control_server = st.control_server ∧
    (FTPProxy.start env st).1.data_servers = st.data_servers ∧
    FTPProxy.start env2 (FTPProxy.start env st).1 =
      ((FTPProxy.start env st).1, none, []) := by
  refine ⟨?_, ?_, ?_, ?_, ?_⟩ <;> simp [FTPProxy.start, hrun, hbind]

/-- Witness for C10 on a freshly constructed proxy with all binds failing. -/
theorem C10_flag_set_before_bind_witness :
    ((FTPProxy.init "printer" "0.0.0.0").running = false) ∧
    ((fun _ => false) (FTPProxy.init "printer" "0.0.0.0").port = false) ∧
    ((FTPProxy.start (fun _ => false) (FTPProxy.init "printer" "0.0.0.0")).1.running = true ∧
     (FTPProxy.start (fun _ => false) (FTPProxy.init "printer" "0.0.0.0")).2.1 =
       some (FTPProxy.init "printer" "0.0.0.0").port ∧
     (FTPProxy.start (fun _ => false) (FTPProxy.init "printer" "0.0.0.0")).1.control_server =
       (FTPProxy.init "printer" "0.0.0.0").control_server ∧
     (FTPProxy.start (fun _ => false) (FTPProxy.init "printer" "0.0.0.0")).1.data_servers =
       (FTPProxy.init "printer" "0.0.0.0").data_servers ∧
     FTPProxy.start (fun _ => true)
         (FTPProxy.start (fun _ => false) (FTPProxy.init "printer" "0.0.0.0")).1 =
       ((FTPProxy.start (fun _ => false) (FTPProxy.init "printer" "0.0.0.0")).1, none, [])) :=
  ⟨rfl, rfl, C10_flag_set_before_bind (FTPProxy.init "printer" "0.0.0.0")
    (fun _ => false) (fun _ => true) rfl rfl⟩

/-! ## Operation sequences

A client of the proxy interleaves `start` and `stop` calls with connection
handling; a handled connection first adds the current task to
`_active_connections` (`accept`) and removes it in its `finally` block
(`finish`). -/

/-- One externally observable operation on an `FTPProxy`. -/
inductive Op where
  /-- An `await proxy.start()` under bind environment `env`. -/
  | start (env : Nat → Bool)
  /-- An `await proxy.stop()`. -/
  | stop
  /-- A connection task `t` registering itself in `_active_connections`. -/
  | accept (t : Nat)
  /-- A connection task `t` discarding itself from `_active_connections`. -/
  | finish (t : Nat)

/-- Effect of one operation on the proxy state.  `accept` mirrors
`set.add` (no duplicates); `finish` mirrors `set.discard`. -/
def execOp (st : FTPProxy) : Op → FTPProxy
  | .start env => (FTPProxy.start env st).1
  | .stop => (FTPProxy.stop st).1
  | .accept t =>
    if t ∈ st.active_connections then st
    else { st with active_connections := st.active_connections ++ [t] }
  | .finish t =>
    { st with active_connections := st.active_connections.filter (fun x => x ≠ t) }

/-- Effect of a sequence of operations, run left to right. -/
def execOps (st : FTPProxy) (ops : List Op) : FTPProxy := ops.foldl execOp st

/-- The trace `FTPProxy.stop` emits, written out. -/
theorem stop_snd (st : FTPProxy) :
    (FTPProxy.stop st).2 =
      st.active_connections.map StopAct.cancelTask ++
      (if st.active_connections.isEmpty then []
       else st.active_connections.map StopAct.awaitTask) ++
      (match st.control_server with
       | none => []
       | some s => [StopAct.closeControl s.port, StopAct.waitControl s.port]) ++
      st.data_servers.map (fun s => StopAct.closeData s.port) ++
      st.data_servers.map (fun s => StopAct.waitData s.port) := rfl

/-- What `FTPProxy.stop` guarantees from an arbitrary state: every active
task is cancelled and awaited, the control server (if any) and every data
server is closed and awaited, and the resulting state has no active tasks,
no open listeners, and an empty data-server list. -/
theorem stop_spec (st : FTPProxy) :
    (FTPProxy.stop st).1.active_connections = [] ∧
    (FTPProxy.stop st).1.openListeners = [] ∧
    (FTPProxy.stop st).1.data_servers = [] ∧
    (∀ t ∈ st.active_connections,
      StopAct.cancelTask t ∈ (FTPProxy.stop st).2 ∧
      StopAct.awaitTask t ∈ (FTPProxy.stop st).2) ∧
    (∀ s, st.control_server = some s →
      StopAct.closeControl s.port ∈ (FTPProxy.stop st).2 ∧
      StopAct.waitControl s.port ∈ (FTPProxy.stop st).2) ∧
    (∀ s ∈ st.data_servers,
      StopAct.closeData s.port ∈ (FTPProxy.stop st).2 ∧
      StopAct.waitData s.port ∈ (FTPProxy.stop st).2) := by
  refine ⟨rfl, ?_, rfl, ?_, ?_, ?_⟩
  · cases hc : st.control_server with
    | none => simp [FTPProxy.stop, FTPProxy.openListeners, hc]
    | some s => simp [FTPProxy.stop, FTPProxy.openListeners, hc]
  · intro t ht
    have hne : st.active_connections.isEmpty = false := by
      rcases hx : st.active_connections with _ | ⟨a, as⟩
      · rw [hx] at ht; cases ht
      · rfl
    rw [stop_snd]
    refine ⟨?_, ?_⟩
    · exact List.mem_append_left _ (List.mem_append_left _ (List.mem_append_left _
        (List.mem_append_left _ (List.mem_map_of_mem _ ht))))
    · refine List.mem_append_left _ (List.mem_append_left _ (List.mem_append_left _
        (List.mem_append_right _ ?_)))
      simp only [hne, Bool.false_eq_true, if_false]
      exact List.mem_map_of_mem _ ht
  · intro s hc
    rw [stop_snd, hc]
    refine ⟨?_, ?_⟩
    · exact List.mem_append_left _ (List.mem_append_left _
        (List.mem_append_right _ (by simp)))
    · exact List.mem_append_left _ (List.mem_append_left _
        (List.mem_append_right _ (by simp)))
  · intro s hs
    rw [stop_snd]
    refine ⟨?_, ?_⟩
    · exact List.mem_append_left _
        (List.mem_append_right _ (List.mem_map_of_mem _ hs))
    · exact List.mem_append_right _ (List.mem_map_of_mem _ hs)

/-- C3: after any sequence of start/stop calls and connection
registrations, `stop` cancels every in-flight connection task and awaits
it, closes and awaits the control listener and every data listener, and
returns a state with no active connection tasks and no open listeners. -/
theorem C3_stop_terminal_cleanup (printer_ip bind_address : String) (ops : List Op) :
    (FTPProxy.stop (execOps (FTPProxy.init printer_ip bind_address) ops)).1.active_connections
        = [] ∧
    (FTPProxy.stop (execOps (FTPProxy.init printer_ip bind_address) ops)).1.openListeners = [] ∧
    (∀ t ∈ (execOps (FTPProxy.init printer_ip bind_address) ops).active_connections,
      StopAct.cancelTask t
          ∈ (FTPProxy.stop (execOps (FTPProxy.init printer_ip bind_address) ops)).2 ∧
      StopAct.awaitTask t
          ∈ (FTPProxy.stop (execOps (FTPProxy.init printer_ip bind_address) ops)).2) ∧
    (∀ s, (execOps (FTPProxy.init printer_ip bind_address) ops).control_server = some s →
      StopAct.closeControl s.port
          ∈ (FTPProxy.stop (execOps (FTPProxy.init printer_ip bind_address) ops)).2 ∧
      StopAct.waitControl s.port
          ∈ (FTPProxy.stop (execOps (FTPProxy.init printer_ip bind_address) ops)).2) ∧
    (∀ s ∈ (execOps (FTPProxy.init printer_ip bind_address) ops).data_servers,
      StopAct.closeData s.port
          ∈ (FTPProxy.stop (execOps (FTPProxy.init printer_ip bind_address) ops)).2 ∧
      StopAct.waitData s.port
          ∈ (FTPProxy.stop (execOps (FTPProxy.init printer_ip bind_address) ops)).2) := by
  obtain ⟨h1, h2, _, h4, h5, h6⟩ :=
    stop_spec (execOps (FTPProxy.init printer_ip bind_address) ops)
  exact ⟨h1, h2, h4, h5, h6⟩

/-! ## Lifecycle monotonicity (C8)

The Python class has no five-state machine, only the `_running` flag, and
`stop` clears it, so a stopped proxy can be started again: the
once-`Stopped`-never-`Running` reading of the lifecycle fails on the code. -/

/-- C8 counterexample: start, stop, start.  After the stop the proxy is
stopped (flag cleared, no open listener); the subsequent `start` succeeds
and returns it to a running state with open listeners — so a proxy that
has reached `Stopped` does return to `Running`. -/
theorem C8_counterexample :
    ((FTPProxy.stop
        (FTPProxy.start (fun _ => true) (FTPProxy.init "printer" "0.0.0.0")).1).1.running
          = false ∧
     (FTPProxy.stop
        (FTPProxy.start (fun _ => true) (FTPProxy.init "printer" "0.0.0.0")).1).1.openListeners
          = []) ∧
    ((FTPProxy.start (fun _ => true)
        (FTPProxy.stop
          (FTPProxy.start (fun _ => true) (FTPProxy.init "printer" "0.0.0.0")).1).1).1.running
          = true ∧
     (FTPProxy.start (fun _ => true)
        (FTPProxy.stop
          (FTPProxy.start (fun _ => true) (FTPProxy.init "printer" "0.0.0.0")).1).1).1.openListeners
          ≠ []) := by
  refine ⟨⟨rfl, rfl⟩, rfl, ?_⟩
  decide

/-- C8 amended: the lifecycle is not monotone past `Stopped`.  `stop`
always yields a stopped state (running flag cleared, no open listeners),
and a subsequent `start` whose control-port bind succeeds returns the
proxy to a running state with open listeners: the proxy is restartable,
and only within a single call does the state advance forward. -/
theorem C8_amended_restartable (st : FTPProxy) (env : Nat → Bool)
    (hbind : env st.port = true) :
    (FTPProxy.stop st).1.running = false ∧
    (FTPProxy.stop st).1.openListeners = [] ∧
    (FTPProxy.start env (FTPProxy.stop st).1).1.running = true ∧
    (FTPProxy.start env (FTPProxy.stop st).1).1.openListeners ≠ [] := by
  have hstopped : (FTPProxy.stop st).1.running = false := rfl
  have hopen : (FTPProxy.stop st).1.openListeners = [] := (stop_spec st).2.1
  refine ⟨hstopped, hopen, ?_, ?_⟩ <;>
    simp [FTPProxy.start, FTPProxy.stop, FTPProxy.openListeners, hbind]

/-- Witness for C8 amended, with every bind succeeding. -/
theorem C8_amended_restartable_witness :
    ((fun _ => true) (FTPProxy.init "printer" "0.0.0.0").port = true) ∧
    ((FTPProxy.stop (FTPProxy.init "printer" "0.0.0.0")).1.running = false ∧
     (FTPProxy.stop (FTPProxy.init "printer" "0.0.0.0")).1.openListeners = [] ∧
     (FTPProxy.start (fun _ => true)
        (FTPProxy.stop (FTPProxy.init "printer" "0.0.0.0")).1).1.running = true ∧
     (FTPProxy.start (fun _ => true)
        (FTPProxy.stop (FTPProxy.init "printer" "0.0.0.0")).1).1.openListeners ≠ []) :=
  ⟨rfl, C8_amended_restartable (FTPProxy.init "printer" "0.0.0.0") (fun _ => true) rfl⟩

/-! ## Per-connection handling (`FTPProxy._handle_connection`)

The handler's I/O world is abstracted by the outcome of the upstream
connect (`asyncio.wait_for(asyncio.open_connection(...), timeout=10.0)`)
and, when it succeeds, the outcome of `_forward_bidirectional`.  Python
exceptions relevant to the handler are modelled explicitly; note that
`asyncio.CancelledError` derives from `BaseException`, so the
`except Exception` clause does not catch it. -/

/-- A Python exception as seen by the handler's `except` clauses. -/
inductive PyExc where
  | cancelled
  | timeoutError
  | connectionRefused
  | otherError
deriving DecidableEq, Repr

/-- Outcome of the upstream connect attempt. -/
inductive ConnectResult where
  /-- `open_connection` returned a reader/writer pair within 10 s. -/
  | ok
  /-- `asyncio.wait_for` raised `TimeoutError`. -/
  | timedOut
  /-- `open_connection` raised `ConnectionRefusedError`. -/
  | refused
  /-- Some other exception (e.g. `OSError`) was raised. -/
  | failed
  /-- The task was cancelled while connecting. -/
  | cancelled
deriving DecidableEq, Repr

/-- Outcome of `_forward_bidirectional` (it either returns normally or
re-raises `CancelledError`; `forward` catches every other exception). -/
inductive ForwardResult where
  | completed
  | cancelled
deriving DecidableEq, Repr

/-- The I/O environment one handled connection runs in. -/
structure HandleEnv where
  connect : ConnectResult
  fwd : ForwardResult
deriving DecidableEq, Repr

/-- Observable actions of `_handle_connection`. -/
inductive HandleAct where
  /-- `asyncio.wait_for(asyncio.open_connection(ip, port), timeout)`. -/
  | connectTo (ip : String) (port : Nat) (timeoutSecs : Nat)
  /-- `await self._forward_bidirectional(...)`. -/
  | forwardBidi
  /-- `await close_writer(client_writer)` in the `finally` block. -/
  | closeClientWriter
  /-- `await close_writer(upstream_writer)` in the `finally` block. -/
  | closeUpstreamWriter
  /-- `self._active_connections.discard(task)` in the `finally` block. -/
  | discardTask
deriving DecidableEq, Repr

/-- Result of `_handle_connection`: the exception (if any) propagating out
of the coroutine, the action trace, and whether the upstream writer was
opened. -/
structure HandleResult where
  raised : Option PyExc
  trace : List HandleAct
  upstreamOpened : Bool
deriving DecidableEq, Repr

/-- The `try` body of `_handle_connection`: connect to the printer on the
same port with a 10-second timeout, then forward bidirectionally.  Returns
the exception the body raises (if any), its actions, and whether
`upstream_writer` was assigned. -/
def tryBody (env : HandleEnv) (ip : String) (p : Nat) :
    Option PyExc × List HandleAct × Bool :=
  match env.connect with
  | .timedOut => (some .timeoutError, [.connectTo ip p 10], false)
  | .refused => (some .connectionRefused, [.connectTo ip p 10], false)
  | .failed => (some .otherError, [.connectTo ip p 10], false)
  | .cancelled => (some .cancelled, [.connectTo ip p 10], false)
  | .ok =>
    match env.fwd with
    | .completed => (none, [.connectTo ip p 10, .forwardBidi], true)
    | .cancelled => (some .cancelled, [.connectTo ip p 10, .forwardBidi], true)

/-- `FTPProxy._handle_connection` for a connection accepted on port `p`:
runs the `try` body, applies the `except TimeoutError` /
`except ConnectionRefusedError` / `except Exception` clauses (each catches
and logs; `CancelledError` is none of these and propagates), then the
`finally` block closes the client writer, closes the upstream writer if it
was opened, and discards the task. -/
def FTPProxy.handleConnection (env : HandleEnv) (ip : String) (p : Nat) :
    HandleResult :=
  let (exc, acts, opened) := tryBody env ip p
  let raised : Option PyExc :=
    match exc with
    | some .timeoutError => none
    | some .connectionRefused => none
    | some .otherError => none
    | some .cancelled => some .cancelled
    | none => none
  { raised := raised
    trace := acts ++ [.closeClientWriter] ++
      (if opened then [.closeUpstreamWriter] else []) ++ [.discardTask]
    upstreamOpened := opened }

/-- C6: for every handled connection, in every I/O environment: the only
exception that can propagate out of `_handle_connection` is cancellation
(timeouts, refused connections, and any other error are caught), and on
every exit path the client writer is closed and the upstream writer is
closed exactly when it was opened. -/
theorem C6_handler_errors_local (env : HandleEnv) (ip : String) (p : Nat) :
    (∀ e, (FTPProxy.handleConnection env ip p).raised = some e → e = PyExc.cancelled) ∧
    HandleAct.closeClientWriter ∈ (FTPProxy.handleConnection env ip p).trace ∧
    ((FTPProxy.handleConnection env ip p).upstreamOpened = true →
      HandleAct.closeUpstreamWriter ∈ (FTPProxy.handleConnection env ip p).trace) ∧
    ((FTPProxy.handleConnection env ip p).upstreamOpened = false →
      HandleAct.closeUpstreamWriter ∉ (FTPProxy.handleConnection env ip p).trace) := by
  obtain ⟨c, f⟩ := env
  cases c <;> cases f <;>
    simp [FTPProxy.handleConnection, tryBody]

/-! ## Bidirectional forwarding (`FTPProxy._forward_bidirectional`)

The two copy directions are spawned as tasks; `asyncio.wait(...,
return_when=FIRST_COMPLETED)` suspends until at least one finishes (by EOF
or error — `forward` catches everything else), after which each still-pending
task is cancelled and awaited with `CancelledError` suppressed.  If the wait
itself is cancelled, both tasks are cancelled and the cancellation
re-raised.  A direction is `true` for client→printer, `false` for
printer→client. -/

/-- How the `asyncio.wait` call resolves. -/
inductive WaitOutcome where
  /-- Exactly the direction `d` finished first; the other is still pending. -/
  | firstDone (d : Bool)
  /-- Both directions finished before the wait returned. -/
  | bothDone
  /-- The wait was cancelled (outer task cancellation). -/
  | cancelled
deriving DecidableEq, Repr

/-- Observable actions of `_forward_bidirectional`. -/
inductive BidiAct where
  /-- `asyncio.create_task(forward ...)` for direction `d`. -/
  | spawnDir (d : Bool)
  /-- `await asyncio.wait([task1, task2], FIRST_COMPLETED)`. -/
  | waitFirstCompleted
  /-- `task.cancel()` on the direction `d` task. -/
  | cancelDir (d : Bool)
  /-- `await task` of direction `d` (with `CancelledError` suppressed). -/
  | awaitDir (d : Bool)
deriving DecidableEq, Repr

/-- The directions already terminated when `asyncio.wait` returns. -/
def doneDirs : WaitOutcome → List Bool
  | .firstDone d => [d]
  | .bothDone => [true, false]
  | .cancelled => []

/-- `FTPProxy._forward_bidirectional`: spawn both directions, wait for the
first completion, cancel and await each pending task; on cancellation of
the wait, cancel both tasks and re-raise. -/
def FTPProxy.forwardBidirectional (w : WaitOutcome) : Option PyExc × List BidiAct :=
  let pre := [BidiAct.spawnDir true, BidiAct.spawnDir false, BidiAct.waitFirstCompleted]
  match w with
  | .firstDone d => (none, pre ++ [.cancelDir (!d), .awaitDir (!d)])
  | .bothDone => (none, pre)
  | .cancelled => (some .cancelled, pre ++ [.cancelDir true, .cancelDir false])

/-- C7: both directions are spawned and copied concurrently; when either
direction finishes (EOF or error) the other is cancelled and awaited, and
the pipe returns (without exception) only once every direction has
terminated — each direction either completed before the wait returned or
was cancelled and awaited; if the pipe itself is cancelled, both direction
tasks are cancelled and the cancellation propagates. -/
theorem C7_bidirectional_termination (w : WaitOutcome) :
    BidiAct.spawnDir true ∈ (FTPProxy.forwardBidirectional w).2 ∧
    BidiAct.spawnDir false ∈ (FTPProxy.forwardBidirectional w).2 ∧
    ((FTPProxy.forwardBidirectional w).1 = none →
      ∀ d : Bool, d ∈ doneDirs w ∨
        (BidiAct.cancelDir d ∈ (FTPProxy.forwardBidirectional w).2 ∧
         BidiAct.awaitDir d ∈ (FTPProxy.forwardBidirectional w).2)) ∧
    (∀ d : Bool, w = WaitOutcome.firstDone d →
      BidiAct.cancelDir (!d) ∈ (FTPProxy.forwardBidirectional w).2 ∧
      BidiAct.awaitDir (!d) ∈ (FTPProxy.forwardBidirectional w).2) ∧
    (w = WaitOutcome.cancelled →
      (FTPProxy.forwardBidirectional w).1 = some PyExc.cancelled ∧
      BidiAct.cancelDir true ∈ (FTPProxy.forwardBidirectional w).2 ∧
      BidiAct.cancelDir false ∈ (FTPProxy.forwardBidirectional w).2) := by
  cases w with
  | firstDone d => cases d <;> decide
  | bothDone => decide
  | cancelled => decide

/-- C5: when every bind succeeds, `start` on a fresh proxy binds one
listener on the control port 990 and one on each port 2000..2100 (and
raises nothing); and every accepted connection on a port `p` first opens a
plain TCP connection to the printer on the same port `p` with a 10-second
timeout, and splices bytes only after that connect succeeded. -/
theorem C5_start_binds_handler_connects (st : FTPProxy) (env : Nat → Bool)
    (hrun : st.running = false) (hall : ∀ p, env p = true)
    (hport : st.port = FTP_PORT) :
    (FTPProxy.start env st).2.1 = none ∧
    (FTPProxy.start env st).1.control_server = some { port := 990, isOpen := true } ∧
    (FTPProxy.start env st).1.data_servers.map Server.port
        = st.data_servers.map Server.port ++ List.range' 2000 101 ∧
    (∀ cenv : HandleEnv, ∀ ip : String, ∀ p : Nat,
      (FTPProxy.handleConnection cenv ip p).trace.head?
          = some (HandleAct.connectTo ip p 10)) ∧
    (∀ cenv : HandleEnv, ∀ ip : String, ∀ p : Nat,
      cenv.connect = ConnectResult.ok →
      (FTPProxy.handleConnection cenv ip p).trace.take 2
          = [HandleAct.connectTo ip p 10, HandleAct.forwardBidi]) := by
  have hbind : env st.port = true := hall st.port
  have hfilter : dataPortRange.filter (fun p => env p) = dataPortRange :=
    List.filter_eq_self.mpr (fun a _ => hall a)
  have hrange : dataPortRange = List.range' 2000 101 := rfl
  refine ⟨?_, ?_, ?_, ?_, ?_⟩
  · simp [FTPProxy.start, hrun, hbind]
  · have h990 : env 990 = true := hall 990
    simp [FTPProxy.start, hrun, hbind, hport, FTP_PORT, h990]
  · simp only [FTPProxy.start, hrun, Bool.false_eq_true, if_false, hbind, if_true]
    rw [← hrange]
    simp [bindDataPorts_fst, hfilter, List.map_map, Function.comp_def]
  · intro cenv ip p
    obtain ⟨c, f⟩ := cenv
    cases c <;> cases f <;> rfl
  · intro cenv ip p hc
    obtain ⟨c, f⟩ := cenv
    cases hc
    cases f <;> rfl

/-- Witness for C5 on a fresh proxy with every bind succeeding. -/
theorem C5_start_binds_handler_connects_witness :
    ((FTPProxy.init "printer" "0.0.0.0").running = false) ∧
    (∀ p, (fun _ : Nat => true) p = true) ∧
    ((FTPProxy.init "printer" "0.0.0.0").port = FTP_PORT) ∧
    ((FTPProxy.start (fun _ : Nat => true) (FTPProxy.init "printer" "0.0.0.0")).2.1 = none ∧
     (FTPProxy.start (fun _ : Nat => true) (FTPProxy.init "printer" "0.0.0.0")).1.control_server
         = some { port := 990, isOpen := true } ∧
     (FTPProxy.start (fun _ : Nat => true)
        (FTPProxy.init "printer" "0.0.0.0")).1.data_servers.map Server.port
         = (FTPProxy.init "printer" "0.0.0.0").data_servers.map Server.port ++
           List.range' 2000 101 ∧
     (∀ cenv : HandleEnv, ∀ ip : String, ∀ p : Nat,
       (FTPProxy.handleConnection cenv ip p).trace.head?
           = some (HandleAct.connectTo ip p 10)) ∧
     (∀ cenv : HandleEnv, ∀ ip : String, ∀ p : Nat,
       cenv.connect = ConnectResult.ok →
       (FTPProxy.handleConnection cenv ip p).trace.take 2
           = [HandleAct.connectTo ip p 10, HandleAct.forwardBidi])) :=
  ⟨rfl, fun _ => rfl, rfl,
   C5_start_binds_handler_connects (FTPProxy.init "printer" "0.0.0.0")
     (fun _ : Nat => true) rfl (fun _ => rfl) rfl⟩
